import Mathlib

/-!
Shallow embedding of the Supermarket inventory core
(`src/apps/products/services.py`, `src/apps/delivery/services.py`,
`src/apps/orders/services.py`, `src/apps/orders/constants.py`), with
theorems checking the natural-language specification against the code.

Stateful Django/Redis operations are embedded as explicit state-passing
functions over the fields the code reads and writes; exceptions become
`Except` results carrying the exception class (and message where the code
sets one).  The pessimistic row lock (`select_for_update`) serializes all
mutators of one row for the whole transaction, so one durable transaction
is one atomic step of the model.
-/

namespace Supermarket

/-- A `Stock` row: `quantity` (PositiveIntegerField) and the optimistic-lock
`version` column (`src/apps/products/models.py`). -/
structure Stock where
  quantity : Nat
  version : Nat
  deriving Repr, DecidableEq

/-- Exception classes raised by the stock services
(`src/common/exceptions.py` and Django's `Stock.DoesNotExist`,
`ValueError` from `cache.decr`/`cache.incr` on a missing key). -/
inductive ExcClass where
  | insufficientStock
  | stockUpdateConflict
  | stockDoesNotExist
  | valueError
  deriving Repr, DecidableEq

/-- An exception instance: class plus the message the code attaches
(empty string = the class default message). -/
structure Exc where
  cls : ExcClass
  msg : String
  deriving Repr, DecidableEq

/-- `_decrease_stock_db` (services.py:197-252), one transaction holding the
row lock.  `readVersion` is the version read after `select_for_update`;
the conditional update is guarded by
`quantity__gte=quantity, version=current_version`.  When the update hits
zero rows the code re-reads the row and raises `InsufficientStockException`
if `quantity < requested`, else `StockUpdateConflictException`. -/
def decrease_stock_db (s : Stock) (readVersion q : Nat) : Except Exc Stock :=
  if q ≤ s.quantity ∧ s.version = readVersion then
    Except.ok { quantity := s.quantity - q, version := s.version + 1 }
  else if s.quantity < q then
    Except.error ⟨ExcClass.insufficientStock, ""⟩
  else
    Except.error ⟨ExcClass.stockUpdateConflict, ""⟩

/-- `_decrease_stock_db` as actually invoked: the version compared by the
conditional update is the one just read under the row lock, so it is the
stored version of the locked row. -/
def decrease_stock_db_locked (s : Stock) (q : Nat) : Except Exc Stock :=
  decrease_stock_db s s.version q

/-- The stored row after a `_decrease_stock_db` transaction: the updated row
on success, unchanged on failure (the transaction writes nothing when the
conditional update affects zero rows). -/
def decrease_stock_db_run (s : Stock) (q : Nat) : Stock :=
  match decrease_stock_db_locked s q with
  | Except.ok s' => s'
  | Except.error _ => s

/-- C1.  For a stock row with quantity `Q` and version `V` and a call
`decrease(product, q)` with `q > 0`: the durable decrement succeeds exactly
when `Q >= q`, yielding quantity `Q - q` and version `V + 1`; when `Q < q`
it fails with `InsufficientStock` and the stored row is unchanged. -/
theorem decrease_stock_db_correct (Q V q : Nat) (_hq : 0 < q) :
    ((∃ s', decrease_stock_db_locked ⟨Q, V⟩ q = Except.ok s') ↔ q ≤ Q)
    ∧ (q ≤ Q →
        decrease_stock_db_locked ⟨Q, V⟩ q = Except.ok ⟨Q - q, V + 1⟩)
    ∧ (Q < q →
        decrease_stock_db_locked ⟨Q, V⟩ q
          = Except.error ⟨ExcClass.insufficientStock, ""⟩
        ∧ decrease_stock_db_run ⟨Q, V⟩ q = ⟨Q, V⟩) := by
  have hok : ∀ _ : q ≤ Q,
      decrease_stock_db_locked ⟨Q, V⟩ q = Except.ok ⟨Q - q, V + 1⟩ := by
    intro h
    simp [decrease_stock_db_locked, decrease_stock_db, h]
  have herr : ∀ _ : Q < q,
      decrease_stock_db_locked ⟨Q, V⟩ q
        = Except.error ⟨ExcClass.insufficientStock, ""⟩ := by
    intro h
    have hn : ¬ q ≤ Q := Nat.not_le.mpr h
    simp [decrease_stock_db_locked, decrease_stock_db, hn, h]
  refine ⟨⟨fun ⟨s', hs'⟩ => ?_, fun h => ⟨⟨Q - q, V + 1⟩, hok h⟩⟩,
    hok, fun h => ⟨herr h, ?_⟩⟩
  · by_cases h : q ≤ Q
    · exact h
    · rw [herr (Nat.not_le.mp h)] at hs'
      cases hs'
  · simp [decrease_stock_db_run, herr h]

/-- Witness for C1 at the spec's own scenarios: stock 100, decrease 10 →
quantity 90, version bumped; stock 100, decrease 150 → `InsufficientStock`
with the row unchanged. -/
theorem decrease_stock_db_correct_witness :
    decrease_stock_db_locked ⟨100, 0⟩ 10 = Except.ok ⟨90, 1⟩
    ∧ decrease_stock_db_locked ⟨100, 0⟩ 150
        = Except.error ⟨ExcClass.insufficientStock, ""⟩
    ∧ decrease_stock_db_run ⟨100, 0⟩ 150 = ⟨100, 0⟩ := by
  refine ⟨(decrease_stock_db_correct 100 0 10 (by decide)).2.1 (by decide),
    ((decrease_stock_db_correct 100 0 150 (by decide)).2.2 (by decide)).1,
    ((decrease_stock_db_correct 100 0 150 (by decide)).2.2 (by decide)).2⟩

/-- `OPTIMISTIC_LOCK_MAX_RETRIES` (services.py:49). -/
def OPTIMISTIC_LOCK_MAX_RETRIES : Nat := 3

/-- `OPTIMISTIC_LOCK_RETRY_DELAY_MS` (services.py:50), base backoff delay. -/
def OPTIMISTIC_LOCK_RETRY_DELAY_MS : Nat := 10

/-- The backoff delay slept before retry `attempt + 1`:
`OPTIMISTIC_LOCK_RETRY_DELAY_MS * (2 ** attempt)` (services.py:146),
in milliseconds. -/
def backoff_delay_ms (attempt : Nat) : Nat :=
  OPTIMISTIC_LOCK_RETRY_DELAY_MS * 2 ^ attempt

/-- Trace of the retry loop of `decrease_stock` (services.py:129-176):
the surfaced result, how many `_decrease_stock_db` transactions ran, and
the backoff delays slept between them. -/
structure RetryTrace where
  result : Except Exc Stock
  attempts : Nat
  delays : List Nat
  deriving Repr

/-- The retry loop of `decrease_stock` (services.py:129-176), with the
outcome of the `i`-th `_decrease_stock_db` transaction supplied by the
environment (`outcome i` captures whatever concurrent interference that
attempt met).  A conflict with retries left sleeps `backoff_delay_ms i`
and retries; a conflict on the final attempt is raised as the terminal
exception; `InsufficientStockException` (and an uncaught
`Stock.DoesNotExist`) stop the loop at once; with `max_retries = 0` the
loop never runs and services.py:174 raises a fresh
`StockUpdateConflictException`. -/
def run_retry_aux (outcome : Nat → Except Exc Stock) : Nat → Nat → RetryTrace
  | _, 0 => ⟨Except.error ⟨ExcClass.stockUpdateConflict, ""⟩, 0, []⟩
  | i, fuel + 1 =>
    match outcome i with
    | Except.ok s => ⟨Except.ok s, 1, []⟩
    | Except.error e =>
      if e.cls = ExcClass.stockUpdateConflict then
        if fuel = 0 then
          ⟨Except.error e, 1, []⟩
        else
          let rest := run_retry_aux outcome (i + 1) fuel
          ⟨rest.result, rest.attempts + 1, backoff_delay_ms i :: rest.delays⟩
      else
        ⟨Except.error e, 1, []⟩

/-- The retry loop started at attempt 0 with `max_retries` fuel. -/
def decrease_stock_retry (outcome : Nat → Except Exc Stock)
    (maxRetries : Nat) : RetryTrace :=
  run_retry_aux outcome 0 maxRetries

/-- The loop never makes more transactions than its fuel allows. -/
theorem run_retry_aux_attempts_le (outcome : Nat → Except Exc Stock) :
    ∀ i fuel, (run_retry_aux outcome i fuel).attempts ≤ fuel := by
  intro i fuel
  induction fuel generalizing i with
  | zero => simp [run_retry_aux]
  | succ fuel ih =>
    simp only [run_retry_aux]
    cases outcome i with
    | ok s => simp
    | error e =>
      by_cases he : e.cls = ExcClass.stockUpdateConflict
      · by_cases hf : fuel = 0
        · simp [he, hf]
        · simpa [he, hf] using Nat.succ_le_succ (ih (i + 1))
      · simp [he]

/-- C6.  With the default `max_retries = 3`: the durable transaction runs
at most 3 times; an `InsufficientStock` outcome is surfaced at once with
no retry; when every attempt hits a version conflict, exactly 3 attempts
run, the delays slept are `base * 2^0` and `base * 2^1` ms (exponential
backoff between consecutive attempts), and the conflict is surfaced as
terminal. -/
theorem decrease_stock_retry_spec (outcome : Nat → Except Exc Stock) :
    (decrease_stock_retry outcome OPTIMISTIC_LOCK_MAX_RETRIES).attempts
        ≤ OPTIMISTIC_LOCK_MAX_RETRIES
    ∧ (outcome 0 = Except.error ⟨ExcClass.insufficientStock, ""⟩ →
        decrease_stock_retry outcome OPTIMISTIC_LOCK_MAX_RETRIES
          = ⟨Except.error ⟨ExcClass.insufficientStock, ""⟩, 1, []⟩)
    ∧ ((∀ i, outcome i = Except.error ⟨ExcClass.stockUpdateConflict, ""⟩) →
        decrease_stock_retry outcome OPTIMISTIC_LOCK_MAX_RETRIES
          = ⟨Except.error ⟨ExcClass.stockUpdateConflict, ""⟩,
              OPTIMISTIC_LOCK_MAX_RETRIES,
              [backoff_delay_ms 0, backoff_delay_ms 1]⟩) := by
  refine ⟨run_retry_aux_attempts_le outcome 0 OPTIMISTIC_LOCK_MAX_RETRIES,
    fun h0 => ?_, fun hc => ?_⟩
  · simp [decrease_stock_retry, OPTIMISTIC_LOCK_MAX_RETRIES, run_retry_aux, h0]
  · simp [decrease_stock_retry, OPTIMISTIC_LOCK_MAX_RETRIES, run_retry_aux,
      hc 0, hc 1, hc 2]

/-- Witness for C6: the all-conflict environment makes exactly 3 attempts
with backoff delays 10 ms and 20 ms then surfaces the conflict, and an
immediate `InsufficientStock` stops after 1 attempt. -/
theorem decrease_stock_retry_spec_witness :
    decrease_stock_retry
        (fun _ => Except.error ⟨ExcClass.stockUpdateConflict, ""⟩)
        OPTIMISTIC_LOCK_MAX_RETRIES
      = ⟨Except.error ⟨ExcClass.stockUpdateConflict, ""⟩, 3, [10, 20]⟩
    ∧ decrease_stock_retry
        (fun _ => Except.error ⟨ExcClass.insufficientStock, ""⟩)
        OPTIMISTIC_LOCK_MAX_RETRIES
      = ⟨Except.error ⟨ExcClass.insufficientStock, ""⟩, 1, []⟩ := by
  constructor
  · have h := (decrease_stock_retry_spec
      (fun _ => Except.error ⟨ExcClass.stockUpdateConflict, ""⟩)).2.2
      (fun _ => rfl)
    simpa [OPTIMISTIC_LOCK_MAX_RETRIES, backoff_delay_ms,
      OPTIMISTIC_LOCK_RETRY_DELAY_MS] using h
  · exact (decrease_stock_retry_spec
      (fun _ => Except.error ⟨ExcClass.insufficientStock, ""⟩)).2.1 rfl

/-- Result of a full `decrease_stock` call: the raised exception (or
success), the durable row afterwards, and the Redis entry for the
product's stock key afterwards. -/
structure DecreaseResult where
  result : Except Exc Unit
  db : Option Stock
  cache : Option Int
  deriving Repr

/-- `sync_stock_to_redis` (services.py:307-338): on a found row,
`cache.set(key, quantity)`; on `Stock.DoesNotExist` it only logs and
returns 0, leaving the cache untouched. -/
def sync_stock_to_redis (db : Option Stock) (c : Option Int) : Option Int :=
  match db with
  | some st => some (st.quantity : Int)
  | none => c

/-- `_ensure_stock_in_redis` (services.py:341-349): cache-aside refill
when the key is absent. -/
def ensure_stock_in_redis (db : Option Stock) (c : Option Int) : Option Int :=
  match c with
  | some v => some v
  | none => sync_stock_to_redis db none

/-- Durable path of `decrease_stock` plus its exception handlers
(services.py:127-194), in the serialized model where the calling
transaction's row lock admits no concurrent writer, so the first
`_decrease_stock_db` attempt decides and the retry loop never sees a
version conflict.  A `Stock.DoesNotExist` from the missing row is caught
at services.py:188-194: the cache decrement is rolled back and an
`InsufficientStockException` with message "Product stock not found" is
raised in its place; `InsufficientStockException` from the row itself is
rolled back and re-raised (services.py:178-186). -/
def decrease_stock_durable (db : Option Stock) (c : Option Int) (q : Nat)
    (redis_decremented : Bool) : DecreaseResult :=
  match db with
  | none =>
    ⟨Except.error ⟨ExcClass.insufficientStock, "Product stock not found"⟩,
      none, if redis_decremented then c.map (· + (q : Int)) else c⟩
  | some st =>
    match decrease_stock_db_locked st q with
    | Except.ok st' => ⟨Except.ok (), some st', c⟩
    | Except.error e =>
      ⟨Except.error e, some st,
        if redis_decremented then c.map (· + (q : Int)) else c⟩

/-- `decrease_stock` (services.py:58-194) over one product's durable row
`db` and its Redis stock entry `c`, serialized as above.  `q = 0` models
the `quantity <= 0` ValueError; with `use_redis` the cache-aside refill,
the atomic `DECRBY`, the negative-result rollback-and-reject, and the
missing-key `ValueError` of `cache.decr` are all modelled; the durable
path then runs with the rollback obligation recorded. -/
def decrease_stock (db : Option Stock) (c : Option Int) (q : Nat)
    (use_redis : Bool) : DecreaseResult :=
  if q = 0 then
    ⟨Except.error ⟨ExcClass.valueError, "quantity must be positive"⟩, db, c⟩
  else if use_redis then
    match ensure_stock_in_redis db c with
    | none => ⟨Except.error ⟨ExcClass.valueError, "cache key not found"⟩,
        db, none⟩
    | some v =>
      if v - (q : Int) < 0 then
        ⟨Except.error ⟨ExcClass.insufficientStock, ""⟩, db, some v⟩
      else
        decrease_stock_durable db (some (v - (q : Int))) q true
  else
    decrease_stock_durable db c q false

/-- C5 counterexample evaluation: with the row missing and the cache
holding 5 units, `decrease(product, 1)` surfaces
`InsufficientStockException("Product stock not found")` — the same
exception class as the insufficient-stock business rejection, not a
propagated `Stock.DoesNotExist`. -/
theorem decrease_stock_missing_row_not_propagated :
    (decrease_stock none (some 5) 1 true).result
      = Except.error ⟨ExcClass.insufficientStock, "Product stock not found"⟩
    ∧ ExcClass.insufficientStock ≠ ExcClass.stockDoesNotExist := by
  constructor
  · rfl
  · decide

/-- C5 amended.  When `decrease(product_id, q)` (q > 0) finds no stock
row, the failure surfaces as `InsufficientStockException` carrying the
message "Product stock not found" (the same exception class as the
business rejection, distinguishable only by its message), and the
fast-path cache decrement is rolled back: with the fast path on and the
cache holding `v >= q`, the cache ends back at `v`; with the fast path
off, the cache is untouched. -/
theorem decrease_stock_missing_row_wrapped (v : Int) (c0 : Option Int)
    (q : Nat) (hq : 0 < q) (hv : (q : Int) ≤ v) :
    decrease_stock none (some v) q true
      = ⟨Except.error ⟨ExcClass.insufficientStock, "Product stock not found"⟩,
          none, some v⟩
    ∧ decrease_stock none c0 q false
      = ⟨Except.error ⟨ExcClass.insufficientStock, "Product stock not found"⟩,
          none, c0⟩ := by
  constructor
  · have hnot : ¬ v - (q : Int) < 0 := by omega
    simp [decrease_stock, ensure_stock_in_redis, sync_stock_to_redis,
      decrease_stock_durable, Nat.pos_iff_ne_zero.mp hq, hnot]
  · simp [decrease_stock, decrease_stock_durable, Nat.pos_iff_ne_zero.mp hq]

/-- Witness for C5 (amended): cache at 5, decrease 1, row missing — the
wrapped exception is raised and the cache is rolled back to 5. -/
theorem decrease_stock_missing_row_wrapped_witness :
    decrease_stock none (some 5) 1 true
      = ⟨Except.error ⟨ExcClass.insufficientStock, "Product stock not found"⟩,
          none, some 5⟩
    ∧ decrease_stock none none 1 false
      = ⟨Except.error ⟨ExcClass.insufficientStock, "Product stock not found"⟩,
          none, none⟩ :=
  ⟨(decrease_stock_missing_row_wrapped 5 none 1 (by decide) (by decide)).1,
    (decrease_stock_missing_row_wrapped 5 none 1 (by decide) (by decide)).2⟩

/-- `N` serialized callers of `decrease_stock(product, 1, use_redis=False)`
(the pessimistic row lock makes every durable transaction atomic, so any
interleaving of `N` identical one-unit decrements is this sequential run):
returns the final row together with the success and failure counts. -/
def run_concurrent_decreases : Nat → Option Stock → Option Stock × Nat × Nat
  | 0, db => (db, 0, 0)
  | n + 1, db =>
    let r := decrease_stock db none 1 false
    let rest := run_concurrent_decreases n r.db
    match r.result with
    | Except.ok _ => (rest.1, rest.2.1 + 1, rest.2.2)
    | Except.error _ => (rest.1, rest.2.1, rest.2.2 + 1)

/-- Closed form of the serialized run from a row with `k` units. -/
theorem run_concurrent_decreases_closed (n : Nat) :
    ∀ k v, run_concurrent_decreases n (some ⟨k, v⟩)
      = (some ⟨k - n, v + min n k⟩, min n k, n - k) := by
  induction n with
  | zero => intro k v; simp [run_concurrent_decreases]
  | succ n ih =>
    intro k v
    cases k with
    | zero =>
      have h0 : decrease_stock (some ⟨0, v⟩) none 1 false
          = ⟨Except.error ⟨ExcClass.insufficientStock, ""⟩,
              some ⟨0, v⟩, none⟩ := by
        simp [decrease_stock, decrease_stock_durable,
          decrease_stock_db_locked, decrease_stock_db]
      simp [run_concurrent_decreases, h0, ih 0 v]
    | succ k =>
      have h1 : decrease_stock (some ⟨k + 1, v⟩) none 1 false
          = ⟨Except.ok (), some ⟨k, v + 1⟩, none⟩ := by
        simp [decrease_stock, decrease_stock_durable,
          decrease_stock_db_locked, decrease_stock_db]
      have hmin : min (n + 1) (k + 1) = min n k + 1 := by omega
      have hsub : k + 1 - (n + 1) = k - n := by omega
      have hsub2 : n + 1 - (k + 1) = n - k := by omega
      simp [run_concurrent_decreases, h1, ih k (v + 1), hmin, hsub, hsub2]
      omega

/-- C2.  A stock row initialized to `K` units, `N` one-unit decrements
(`K < N`) in any serialization: exactly `K` succeed, `N - K` fail, every
failure is an `InsufficientStock` rejection, and the final row is
quantity 0 with `K` version bumps — no oversell and no lost update. -/
theorem concurrent_decreases_no_oversell (N K V : Nat) (h : K < N) :
    run_concurrent_decreases N (some ⟨K, V⟩) = (some ⟨0, V + K⟩, K, N - K)
    ∧ ∀ st : Stock,
        (decrease_stock (some st) none 1 false).result = Except.ok ()
        ∨ (decrease_stock (some st) none 1 false).result
            = Except.error ⟨ExcClass.insufficientStock, ""⟩ := by
  constructor
  · rw [run_concurrent_decreases_closed N K V]
    simp [Nat.min_eq_right h.le, Nat.sub_eq_zero_of_le h.le]
  · intro st
    obtain ⟨k, v⟩ := st
    cases k with
    | zero =>
      right
      simp [decrease_stock, decrease_stock_durable, decrease_stock_db_locked,
        decrease_stock_db]
    | succ k =>
      left
      simp [decrease_stock, decrease_stock_durable, decrease_stock_db_locked,
        decrease_stock_db]

/-- Witness for C2 at the source's own concurrency-test shape: 20 callers
against capacity 10 give 10 successes, 10 failures, final quantity 0. -/
theorem concurrent_decreases_no_oversell_witness :
    run_concurrent_decreases 20 (some ⟨10, 0⟩) = (some ⟨0, 10⟩, 10, 10) := by
  simpa using (concurrent_decreases_no_oversell 20 10 0 (by decide)).1

/-- A `DeliverySlot` row (`src/apps/delivery/models.py`): capacity
counters as `IntegerField`s, the `is_active` flag, and the date/time
comparison of the `has_passed` property abstracted to the boolean it
evaluates to at call time. -/
structure DeliverySlot where
  max_capacity : Int
  current_count : Int
  is_active : Bool
  has_passed : Bool
  deriving Repr, DecidableEq

/-- `DeliverySlot.is_full` (models.py:70-73):
`current_count >= max_capacity`. -/
def DeliverySlot.is_full (s : DeliverySlot) : Bool :=
  s.max_capacity ≤ s.current_count

/-- `DeliverySlot.available_count` (models.py:80-83):
`max(0, max_capacity - current_count)`. -/
def DeliverySlot.available_count (s : DeliverySlot) : Int :=
  max 0 (s.max_capacity - s.current_count)

/-- Errors of the delivery-slot services
(`src/apps/delivery/services.py:34-51`). -/
inductive SlotErr where
  | notFound
  | expired
  | full
  deriving Repr, DecidableEq

/-- `reserve_slot` (delivery/services.py:59-170) on a locked existing
row: reject `DeliverySlotExpiredError` when `has_passed`, reject
`DeliverySlotFullError` when `is_full`, then the conditional update
`current_count = current_count + 1` guarded by
`current_count < max_capacity` (zero rows affected →
`DeliverySlotFullError`); on success return the updated row, its new
count and its remaining capacity.  The code never consults `is_active`. -/
def reserve_slot (s : DeliverySlot) : Except SlotErr (DeliverySlot × Int × Int) :=
  if s.has_passed then
    Except.error SlotErr.expired
  else if s.is_full then
    Except.error SlotErr.full
  else if s.current_count < s.max_capacity then
    let s' := { s with current_count := s.current_count + 1 }
    Except.ok (s', s'.current_count, s'.available_count)
  else
    Except.error SlotErr.full

/-- `release_slot` (delivery/services.py:173-229) on a locked existing
row: conditional decrement guarded by `current_count > 0`; always
succeeds and returns the (possibly unchanged) new count. -/
def release_slot (s : DeliverySlot) : DeliverySlot × Int :=
  let s' :=
    if 0 < s.current_count then
      { s with current_count := s.current_count - 1 }
    else s
  (s', s'.current_count)

/-- `emergency_block_slot` (delivery/services.py:232-287): sets
`is_active = False` unconditionally; `current_count` is untouched. -/
def emergency_block_slot (s : DeliverySlot) : DeliverySlot :=
  { s with is_active := false }

/-- C4 evaluation.  An emergency-blocked slot (`is_active = false`) with
spare capacity and a future window still accepts a reservation:
`reserve_slot` never reads `is_active`, so after `emergency_block_slot`
the reservation succeeds with count 1 instead of being rejected. -/
theorem reserve_slot_ignores_emergency_block :
    (emergency_block_slot ⟨10, 0, true, false⟩).is_active = false
    ∧ reserve_slot (emergency_block_slot ⟨10, 0, true, false⟩)
        = Except.ok (⟨10, 1, false, false⟩, 1, 9) := by
  constructor
  · rfl
  · simp [emergency_block_slot, reserve_slot, DeliverySlot.is_full,
      DeliverySlot.available_count]

/-- One serialized slot operation as the row-state transformer it leaves
behind: a failed `reserve_slot` writes nothing; `release_slot` always
returns its (possibly unchanged) row. -/
inductive SlotOp where
  | reserve
  | release
  deriving Repr, DecidableEq

/-- The row after one operation. -/
def apply_slot_op (s : DeliverySlot) (op : SlotOp) : DeliverySlot :=
  match op with
  | SlotOp.reserve =>
    match reserve_slot s with
    | Except.ok (s', _, _) => s'
    | Except.error _ => s
  | SlotOp.release => (release_slot s).1

/-- The capacity invariant `0 <= current_count <= max_capacity`. -/
def slot_inv (s : DeliverySlot) : Prop :=
  0 ≤ s.current_count ∧ s.current_count ≤ s.max_capacity

/-- One operation preserves the capacity invariant: `reserve_slot` only
increments under `current_count < max_capacity` and `release_slot` only
decrements under `current_count > 0`. -/
theorem apply_slot_op_preserves_inv (s : DeliverySlot) (op : SlotOp)
    (h : slot_inv s) : slot_inv (apply_slot_op s op) := by
  obtain ⟨h0, h1⟩ := h
  cases op with
  | reserve =>
    unfold apply_slot_op reserve_slot
    by_cases hp : s.has_passed
    · simpa [hp] using ⟨h0, h1⟩
    · by_cases hf : s.max_capacity ≤ s.current_count
      · simpa [hp, DeliverySlot.is_full, hf] using ⟨h0, h1⟩
      · have hlt : s.current_count < s.max_capacity := by omega
        simp [hp, DeliverySlot.is_full, hf, hlt, slot_inv]
        omega
  | release =>
    unfold apply_slot_op release_slot
    by_cases hc : 0 < s.current_count
    · simp [hc, slot_inv]
      omega
    · simpa [hc] using ⟨h0, h1⟩

/-- C7.  From any row satisfying `0 <= current_count <= max_capacity`,
the invariant holds after each single `reserve`/`release` operation and
after every sequence of them. -/
theorem slot_capacity_bound (s : DeliverySlot) (h : slot_inv s) :
    (∀ op, slot_inv (apply_slot_op s op))
    ∧ ∀ ops : List SlotOp, slot_inv (ops.foldl apply_slot_op s) := by
  refine ⟨fun op => apply_slot_op_preserves_inv s op h, fun ops => ?_⟩
  induction ops generalizing s with
  | nil => exact h
  | cons op ops ih =>
    exact ih (apply_slot_op s op) (apply_slot_op_preserves_inv s op h)

/-- Witness for C7: a slot at 9 of 10, reserved to capacity, then
over-reserved, then released repeatedly past zero, keeps
`0 <= current_count <= max_capacity` throughout. -/
theorem slot_capacity_bound_witness :
    slot_inv ([SlotOp.reserve, SlotOp.reserve, SlotOp.release,
        SlotOp.release, SlotOp.release].foldl apply_slot_op
        ⟨10, 9, true, false⟩) :=
  (slot_capacity_bound ⟨10, 9, true, false⟩ (by constructor <;> decide)).2 _

/-- `Order.Status` (`src/apps/orders/models.py:96-101`). -/
inductive OrderStatus where
  | pending
  | paid
  | shipped
  | cancelled
  | refunded
  deriving Repr, DecidableEq

/-- `VALID_STATUS_TRANSITIONS` (`src/apps/orders/constants.py:25-39`). -/
def VALID_STATUS_TRANSITIONS : OrderStatus → List OrderStatus
  | OrderStatus.pending => [OrderStatus.paid, OrderStatus.cancelled]
  | OrderStatus.paid => [OrderStatus.shipped, OrderStatus.refunded]
  | OrderStatus.shipped => [OrderStatus.refunded]
  | OrderStatus.cancelled => []
  | OrderStatus.refunded => []

/-- `STATUSES_REQUIRING_STOCK_RESTORE` (constants.py:42-45). -/
def STATUSES_REQUIRING_STOCK_RESTORE : List OrderStatus :=
  [OrderStatus.cancelled, OrderStatus.refunded]

/-- Errors of `update_order_status` (orders/services.py:244-296). -/
inductive OrderErr where
  | orderNotFound
  | invalidStatusTransition
  deriving Repr, DecidableEq

/-- An order as `update_order_status` reads it: its status and its line
items as `(product_id, quantity)` pairs (product ids as `Nat`). -/
structure OrderModel where
  status : OrderStatus
  items : List (Nat × Nat)
  deriving Repr, DecidableEq

/-- `restore_stock` (products/services.py:255-304) on the durable rows:
unconditional `quantity = quantity + q`, `version = version + 1` on the
product's row (rows assumed present; the best-effort Redis sync does not
touch the durable state the claim is about). -/
def restore_stock (stocks : Nat → Stock) (pid : Nat) (q : Nat) : Nat → Stock :=
  fun p =>
    if p = pid then
      ⟨(stocks p).quantity + q, (stocks p).version + 1⟩
    else stocks p

/-- `_restore_order_stock` (orders/services.py:299-312): `restore_stock`
for every line item of the order. -/
def restore_order_stock (stocks : Nat → Stock) :
    List (Nat × Nat) → (Nat → Stock)
  | [] => stocks
  | (pid, q) :: rest => restore_order_stock (restore_stock stocks pid q) rest

/-- `update_order_status` (orders/services.py:244-296) on a locked
existing order, one transaction: reject `InvalidOrderStatusException`
when the target is not in `VALID_STATUS_TRANSITIONS[current]`; otherwise
set the status and, when the target is in
`STATUSES_REQUIRING_STOCK_RESTORE`, restore every line item's quantity in
the same atomic step. -/
def update_order_status (o : OrderModel) (stocks : Nat → Stock)
    (new_status : OrderStatus) :
    Except OrderErr (OrderModel × (Nat → Stock)) :=
  if new_status ∈ VALID_STATUS_TRANSITIONS o.status then
    Except.ok ({ o with status := new_status },
      if new_status ∈ STATUSES_REQUIRING_STOCK_RESTORE then
        restore_order_stock stocks o.items
      else stocks)
  else
    Except.error OrderErr.invalidStatusTransition

/-- The database after `update_order_status`: unchanged when the
transition is rejected (the transaction wrote nothing). -/
def update_order_status_run (o : OrderModel) (stocks : Nat → Stock)
    (new_status : OrderStatus) : OrderModel × (Nat → Stock) :=
  match update_order_status o stocks new_status with
  | Except.ok r => r
  | Except.error _ => (o, stocks)

/-- Total quantity the order's items hold of product `p`. -/
def items_qty (items : List (Nat × Nat)) (p : Nat) : Nat :=
  (items.map (fun it => if it.1 = p then it.2 else 0)).sum

/-- Number of line items of product `p` (each causes one version bump). -/
def items_cnt (items : List (Nat × Nat)) (p : Nat) : Nat :=
  (items.map (fun it => if it.1 = p then 1 else 0)).sum

/-- Effect of restoring all line items on each product's row. -/
theorem restore_order_stock_spec (items : List (Nat × Nat)) :
    ∀ (stocks : Nat → Stock) (p : Nat),
      restore_order_stock stocks items p
        = ⟨(stocks p).quantity + items_qty items p,
            (stocks p).version + items_cnt items p⟩ := by
  induction items with
  | nil =>
    intro stocks p
    simp [restore_order_stock, items_qty, items_cnt]
  | cons it rest ih =>
    intro stocks p
    obtain ⟨pid, q⟩ := it
    by_cases hp : p = pid
    · subst hp
      simp [restore_order_stock, ih, restore_stock, items_qty, items_cnt]
      omega
    · have hp' : pid ≠ p := fun hh => hp hh.symm
      simp [restore_order_stock, ih, restore_stock, items_qty, items_cnt,
        hp, hp']

/-- C8.  The transition table is exactly
`PENDING→{PAID, CANCELLED}`, `PAID→{SHIPPED, REFUNDED}`,
`SHIPPED→{REFUNDED}` with `CANCELLED`/`REFUNDED` terminal; any other
request is rejected with `InvalidStatusTransition` leaving order and
stocks unchanged; an accepted transition sets the status, and when the
target is `CANCELLED` or `REFUNDED` the same atomic step adds each line
item's quantity back to its product's stock. -/
theorem update_order_status_spec (o : OrderModel) (stocks : Nat → Stock)
    (new_status : OrderStatus) :
    (∀ c n, n ∈ VALID_STATUS_TRANSITIONS c ↔
        (c, n) ∈ [(OrderStatus.pending, OrderStatus.paid),
          (OrderStatus.pending, OrderStatus.cancelled),
          (OrderStatus.paid, OrderStatus.shipped),
          (OrderStatus.paid, OrderStatus.refunded),
          (OrderStatus.shipped, OrderStatus.refunded)])
    ∧ (new_status ∉ VALID_STATUS_TRANSITIONS o.status →
        update_order_status o stocks new_status
            = Except.error OrderErr.invalidStatusTransition
        ∧ update_order_status_run o stocks new_status = (o, stocks))
    ∧ (new_status ∈ VALID_STATUS_TRANSITIONS o.status →
        (update_order_status_run o stocks new_status).1
            = { o with status := new_status }
        ∧ ((new_status = OrderStatus.cancelled
              ∨ new_status = OrderStatus.refunded) →
            ∀ p, (update_order_status_run o stocks new_status).2 p
              = ⟨(stocks p).quantity + items_qty o.items p,
                  (stocks p).version + items_cnt o.items p⟩)
        ∧ (new_status ∉ STATUSES_REQUIRING_STOCK_RESTORE →
            (update_order_status_run o stocks new_status).2 = stocks)) := by
  refine ⟨fun c n => by cases c <;> cases n <;> decide,
    fun h => ?_, fun h => ⟨?_, fun hr p => ?_, fun hnr => ?_⟩⟩
  · constructor
    · simp [update_order_status, h]
    · simp [update_order_status_run, update_order_status, h]
  · simp [update_order_status_run, update_order_status, h]
  · have hmem : new_status ∈ STATUSES_REQUIRING_STOCK_RESTORE := by
      cases hr <;> simp_all [STATUSES_REQUIRING_STOCK_RESTORE]
    simp [update_order_status_run, update_order_status, h, hmem,
      restore_order_stock_spec]
  · simp [update_order_status_run, update_order_status, h, hnr]

/-- Witness for C8, matching the spec's cancellation scenario: an order
of quantity 10 over a product whose stock stands at 90 after purchase;
`PENDING → SHIPPED` is rejected, `PENDING → CANCELLED` restores the
stock to 100. -/
theorem update_order_status_spec_witness :
    update_order_status ⟨OrderStatus.pending, [(1, 10)]⟩ (fun _ => ⟨90, 3⟩)
        OrderStatus.shipped = Except.error OrderErr.invalidStatusTransition
    ∧ (update_order_status_run ⟨OrderStatus.pending, [(1, 10)]⟩
        (fun _ => ⟨90, 3⟩) OrderStatus.cancelled).2 1 = ⟨100, 4⟩ := by
  constructor
  · exact ((update_order_status_spec ⟨OrderStatus.pending, [(1, 10)]⟩
      (fun _ => ⟨90, 3⟩) OrderStatus.shipped).2.1 (by decide)).1
  · have h := (((update_order_status_spec ⟨OrderStatus.pending, [(1, 10)]⟩
      (fun _ => ⟨90, 3⟩) OrderStatus.cancelled).2.2 (by decide)).2.1
      (Or.inl rfl)) 1
    simpa [items_qty, items_cnt] using h

/-- `Coupon.DiscountType` (`src/apps/orders/models.py`). -/
inductive DiscountType where
  | percentage
  | fixed_amount
  deriving Repr, DecidableEq

/-- The coupon fields `calculate_discount` reads; monetary amounts as
exact decimals (`ℚ`, mirroring Python `Decimal`). -/
structure CouponDiscount where
  discount_type : DiscountType
  discount_value : ℚ
  min_purchase_amount : ℚ
  deriving DecidableEq

/-- Errors of the coupon services (`src/common/exceptions.py`). -/
inductive CouponErr where
  | notFound
  | expired
  | quotaExceeded
  | alreadyUsed
  | minimumPurchaseNotMet
  deriving Repr, DecidableEq

/-- `calculate_discount` (orders/services.py:395-430): fail
`MinimumPurchaseNotMetException` when `subtotal < min_purchase_amount`;
otherwise `subtotal * (value / 100)` for a percentage coupon or the flat
`value` for a fixed one, returned as `min(discount, subtotal)`. -/
def calculate_discount (c : CouponDiscount) (subtotal : ℚ) :
    Except CouponErr ℚ :=
  if subtotal < c.min_purchase_amount then
    Except.error CouponErr.minimumPurchaseNotMet
  else
    Except.ok (min
      (match c.discount_type with
        | DiscountType.percentage => subtotal * (c.discount_value / 100)
        | DiscountType.fixed_amount => c.discount_value)
      subtotal)

/-- `place_order` step 3.3 (orders/services.py:180):
`total_amount = max(subtotal - discount_amount, 0)`. -/
def order_total (subtotal discount : ℚ) : ℚ :=
  max (subtotal - discount) 0

/-- C9.  `calculate_discount` fails with `MinimumPurchaseNotMet` exactly
when `subtotal < min_purchase_amount`; otherwise it returns
`subtotal * value/100` (percentage) or the flat `value` (fixed), clamped
to never exceed the subtotal; and the order total computed from any
discount is never negative. -/
theorem calculate_discount_spec (c : CouponDiscount) (subtotal : ℚ) :
    (calculate_discount c subtotal
        = Except.error CouponErr.minimumPurchaseNotMet
      ↔ subtotal < c.min_purchase_amount)
    ∧ (c.min_purchase_amount ≤ subtotal →
        c.discount_type = DiscountType.percentage →
        calculate_discount c subtotal
          = Except.ok (min (subtotal * (c.discount_value / 100)) subtotal))
    ∧ (c.min_purchase_amount ≤ subtotal →
        c.discount_type = DiscountType.fixed_amount →
        calculate_discount c subtotal
          = Except.ok (min c.discount_value subtotal))
    ∧ (∀ d, calculate_discount c subtotal = Except.ok d → d ≤ subtotal)
    ∧ (∀ d, 0 ≤ order_total subtotal d) := by
  refine ⟨⟨fun h => ?_, fun h => by simp [calculate_discount, h]⟩,
    fun h ht => ?_, fun h ht => ?_, fun d hd => ?_, fun d => le_max_right _ _⟩
  · by_contra hge
    simp [calculate_discount, hge] at h
  · simp [calculate_discount, not_lt.mpr h, ht]
  · simp [calculate_discount, not_lt.mpr h, ht]
  · by_cases h : subtotal < c.min_purchase_amount
    · simp [calculate_discount, h] at hd
    · simp [calculate_discount, h] at hd
      subst hd
      exact min_le_right _ _

/-- Witness for C9 at the spec's clamp scenario: subtotal 50, fixed
discount 1000 → discount clamped to 50, final total 0. -/
theorem calculate_discount_spec_witness :
    calculate_discount ⟨DiscountType.fixed_amount, 1000, 0⟩ 50
        = Except.ok 50
    ∧ order_total 50 50 = 0 := by
  constructor
  · have h := (calculate_discount_spec
      ⟨DiscountType.fixed_amount, 1000, 0⟩ 50).2.2.1 (by norm_num) rfl
    rw [h]
    norm_num
  · have h0 := (calculate_discount_spec
      ⟨DiscountType.fixed_amount, 1000, 0⟩ 50).2.2.2.2 50
    simp [order_total]

/-- The `Coupon` fields read by `validate_coupon` and `_apply_coupon`
(`src/apps/orders/models.py`): validity timestamps as integers,
`total_limit` (0 = unlimited) and the durable `used_count`. -/
structure CouponState where
  is_active : Bool
  valid_from : Int
  valid_until : Int
  total_limit : Nat
  used_count : Nat
  deriving Repr, DecidableEq

/-- The Redis fast check of validate step 4 (orders/services.py:377-380):
rejects when a cached remaining quota exists and is `<= 0`. -/
def cached_remaining_nonpos : Option Int → Bool
  | some r => r ≤ 0
  | none => false

/-- `validate_coupon` (orders/services.py:320-392): lookup assumed found;
`CouponExpiredException` when inactive or outside the validity window;
with `total_limit > 0`, `QuotaExceeded` from the cached remaining quota
(`<= 0`) or — authoritatively, also resetting the cache to 0 — from
`used_count >= total_limit`; finally `CouponAlreadyUsed` when a
`UserCoupon` row with `used_at` set exists.  Returns the result and the
quota cache afterwards. -/
def validate_coupon (c : CouponState) (now : Int) (cached : Option Int)
    (user_used : Bool) : Except CouponErr Unit × Option Int :=
  if !c.is_active then
    (Except.error CouponErr.expired, cached)
  else if now < c.valid_from then
    (Except.error CouponErr.expired, cached)
  else if c.valid_until < now then
    (Except.error CouponErr.expired, cached)
  else if 0 < c.total_limit ∧ cached_remaining_nonpos cached then
    (Except.error CouponErr.quotaExceeded, cached)
  else if 0 < c.total_limit ∧ c.total_limit ≤ c.used_count then
    (Except.error CouponErr.quotaExceeded, some 0)
  else if user_used then
    (Except.error CouponErr.alreadyUsed, cached)
  else
    (Except.ok (), cached)

/-- `_apply_coupon` (orders/services.py:433-473): an *unconditional*
atomic increment `used_count = F(used_count) + 1` — no guard against
`total_limit` — then the best-effort cache decrement (reconstructing
`total_limit - used_count - 1`, floored at 0, when the key is absent);
the `UserCoupon` upsert sets the per-user marker. -/
def apply_coupon (c : CouponState) (cached : Option Int) :
    CouponState × Option Int :=
  ({ c with used_count := c.used_count + 1 },
    if 0 < c.total_limit then
      match cached with
      | some r => some (r - 1)
      | none => some (max ((c.total_limit : Int) - (c.used_count : Int) - 1) 0)
    else cached)

/-- C3 counterexample evaluation: `_apply_coupon` on a coupon already at
its quota (`total_limit = 1`, `used_count = 1`) succeeds and pushes
`used_count` to 2 — the increment is not conditional and the invariant
`used_count <= total_limit` is violated by the operation itself. -/
theorem apply_coupon_unconditional :
    (apply_coupon ⟨true, 0, 100, 1, 1⟩ none).1.used_count = 2
    ∧ ¬ (apply_coupon ⟨true, 0, 100, 1, 1⟩ none).1.used_count
          ≤ (⟨true, 0, 100, 1, 1⟩ : CouponState).total_limit := by
  decide

/-- One serialized coupon consumption as `place_order` executes it:
`validate_coupon` first, and `_apply_coupon` only when it passes. -/
def validate_then_apply (c : CouponState) (now : Int) (cached : Option Int)
    (user_used : Bool) : CouponState × Bool :=
  match (validate_coupon c now cached user_used).1 with
  | Except.ok _ => ((apply_coupon c cached).1, true)
  | Except.error _ => (c, false)

/-- A serialized run of validate-then-apply consumptions under arbitrary
per-call environments (clock value, cache snapshot, per-user marker);
returns the final coupon row and the number of successful applies. -/
def run_coupon_ops (c : CouponState) :
    List (Int × Option Int × Bool) → CouponState × Nat
  | [] => (c, 0)
  | (now, cached, uu) :: rest =>
    let step := validate_then_apply c now cached uu
    let restRun := run_coupon_ops step.1 rest
    (restRun.1, restRun.2 + if step.2 then 1 else 0)

/-- A passing validation implies the quota was strictly below the limit. -/
theorem validate_coupon_ok_quota (c : CouponState) (now : Int)
    (cached : Option Int) (uu : Bool) (hL : 0 < c.total_limit)
    (h : (validate_coupon c now cached uu).1 = Except.ok ()) :
    c.used_count < c.total_limit := by
  by_contra hge
  push_neg at hge
  unfold validate_coupon at h
  by_cases h1 : !c.is_active
  · simp [h1] at h
  · by_cases h2 : now < c.valid_from
    · simp [h1, h2] at h
    · by_cases h3 : c.valid_until < now
      · simp [h1, h2, h3] at h
      · by_cases h4 : cached_remaining_nonpos cached
        · simp [h1, h2, h3, h4, hL] at h
        · simp [h1, h2, h3, h4, hL, hge] at h

/-- Bookkeeping of a run: `total_limit` is never written, the final
`used_count` is the initial one plus the number of successes, and it
stays at or below `total_limit` when it started there (limits > 0). -/
theorem run_coupon_ops_spec (ops : List (Int × Option Int × Bool)) :
    ∀ c : CouponState, 0 < c.total_limit → c.used_count ≤ c.total_limit →
      (run_coupon_ops c ops).1.total_limit = c.total_limit
      ∧ (run_coupon_ops c ops).1.used_count
          = c.used_count + (run_coupon_ops c ops).2
      ∧ (run_coupon_ops c ops).1.used_count ≤ c.total_limit := by
  induction ops with
  | nil =>
    intro c hL hinv
    simp [run_coupon_ops, hinv]
  | cons env rest ih =>
    intro c hL hinv
    obtain ⟨now, cached, uu⟩ := env
    cases hv : (validate_coupon c now cached uu).1 with
    | ok u =>
      have hlt : c.used_count < c.total_limit := by
        cases u
        exact validate_coupon_ok_quota c now cached uu hL hv
      have hstep : validate_then_apply c now cached uu
          = ((apply_coupon c cached).1, true) := by
        simp [validate_then_apply, hv]
      have ih' := ih (apply_coupon c cached).1 (by simpa [apply_coupon] using hL)
        (by simp [apply_coupon]; omega)
      simp only [run_coupon_ops, hstep] at *
      refine ⟨by simpa [apply_coupon] using ih'.1, ?_, ih'.2.2⟩
      have h2 := ih'.2.1
      simp [apply_coupon] at h2 ⊢
      omega
    | error e =>
      have hstep : validate_then_apply c now cached uu = (c, false) := by
        simp [validate_then_apply, hv]
      have ih' := ih c hL hinv
      simp only [run_coupon_ops, hstep] at *
      exact ⟨ih'.1, by simpa using ih'.2.1, ih'.2.2⟩

/-- C3 amended.  For a coupon with `total_limit = L > 0` whose
`used_count` starts at or below `L`, the serialized validate-then-apply
discipline of `place_order` keeps `used_count <= L` after every
operation and admits at most `L - used_count` further successful
applies; once `used_count = L`, any attempt on an active, in-window
coupon fails `QuotaExceeded` (the guard lives in `validate_coupon`, not
in the unguarded increment of `_apply_coupon`). -/
theorem coupon_quota_ceiling (c : CouponState) (hL : 0 < c.total_limit)
    (hinv : c.used_count ≤ c.total_limit) :
    (∀ now cached uu,
        (validate_then_apply c now cached uu).1.used_count ≤ c.total_limit)
    ∧ (∀ ops, (run_coupon_ops c ops).1.used_count ≤ c.total_limit
        ∧ (run_coupon_ops c ops).2 ≤ c.total_limit - c.used_count)
    ∧ (c.used_count = c.total_limit → c.is_active = true →
        ∀ now cached uu, c.valid_from ≤ now → now ≤ c.valid_until →
          (validate_coupon c now cached uu).1
            = Except.error CouponErr.quotaExceeded) := by
  refine ⟨fun now cached uu => ?_, fun ops => ?_, fun hfull hact now cached uu h1 h2 => ?_⟩
  · cases hv : (validate_coupon c now cached uu).1 with
    | ok u =>
      have hlt : c.used_count < c.total_limit := by
        cases u
        exact validate_coupon_ok_quota c now cached uu hL hv
      simp [validate_then_apply, hv, apply_coupon]
      omega
    | error e =>
      simpa [validate_then_apply, hv] using hinv
  · have h := run_coupon_ops_spec ops c hL hinv
    exact ⟨h.2.2, by omega⟩
  · unfold validate_coupon
    have hna : ¬ now < c.valid_from := not_lt.mpr h1
    have hnb : ¬ c.valid_until < now := not_lt.mpr h2
    by_cases h4 : cached_remaining_nonpos cached
    · simp [hact, hna, hnb, h4, hL]
    · simp [hact, hna, hnb, h4, hL, hfull]

/-- Witness for C3 (amended): limit 2 starting unused, four consumption
attempts in a valid window — two succeed, the rest are rejected; and a
full coupon fails `QuotaExceeded` directly. -/
theorem coupon_quota_ceiling_witness :
    (run_coupon_ops ⟨true, 0, 100, 2, 0⟩
        [(1, none, false), (2, none, false), (3, none, false),
          (4, none, false)]).1.used_count ≤ 2
    ∧ (validate_coupon ⟨true, 0, 100, 2, 2⟩ 5 none false).1
        = Except.error CouponErr.quotaExceeded :=
  ⟨((coupon_quota_ceiling ⟨true, 0, 100, 2, 0⟩ (by decide) (by decide)).2.1
      [(1, none, false), (2, none, false), (3, none, false),
        (4, none, false)]).1,
    (coupon_quota_ceiling ⟨true, 0, 100, 2, 2⟩ (by decide) (by decide)).2.2
      rfl rfl 5 none false (by decide) (by decide)⟩

/-- The outcome classes `place_order` (orders/services.py:88-220) can
surface, at the granularity the rate-limit claim needs. -/
inductive PlaceOrderErr where
  | valueError
  | rateLimitExceeded
  | couponError (e : CouponErr)
  | stockError (e : Exc)
  deriving Repr, DecidableEq

/-- `place_order` (orders/services.py:88-220) abstracted to the ordering
of its early steps: the empty-items `ValueError` (line 131-132, before
anything else), then `check_order_rate_limit`
(products/services.py:357-387, an atomic `cache.add` set-if-absent on
the user's key that raises `RateLimitExceededException` when the key is
already present), then coupon validation and the stock-decrementing
transaction, whose outcomes the environment supplies.  No code path
deletes the rate key; it only expires after `RATE_LIMIT_ORDER_SECONDS`.
Returns the result and whether the user's rate key is present after the
call (within the window). -/
def place_order (key_present : Bool) (items_empty : Bool)
    (coupon_check : Except CouponErr Unit) (stock_check : Except Exc Unit) :
    Except PlaceOrderErr Unit × Bool :=
  if items_empty then
    (Except.error PlaceOrderErr.valueError, key_present)
  else if key_present then
    (Except.error PlaceOrderErr.rateLimitExceeded, true)
  else
    match coupon_check with
    | Except.error e => (Except.error (PlaceOrderErr.couponError e), true)
    | Except.ok _ =>
      match stock_check with
      | Except.error e => (Except.error (PlaceOrderErr.stockError e), true)
      | Except.ok _ => (Except.ok (), true)

/-- C10 counterexample evaluation: an attempt rejected for an empty item
list (line 131) raises before `check_order_rate_limit` runs, so it does
not consume the token, and a second attempt in the same window succeeds
instead of failing `RateLimitExceeded`. -/
theorem place_order_empty_items_no_token :
    (place_order false true (Except.ok ()) (Except.ok ())).2 = false
    ∧ (place_order
        ((place_order false true (Except.ok ()) (Except.ok ())).2)
        false (Except.ok ()) (Except.ok ())).1 = Except.ok () := by
  constructor <;> rfl

/-- C10 amended.  `place_order` consumes the per-user token before any
stock or coupon check (with the token present, the call fails
`RateLimitExceeded` whatever those checks would say) and never releases
it: any attempt with a non-empty item list — succeeding, or failing with
`InsufficientStock` or a coupon error — leaves the key present, so a
second attempt by the same user within the window fails
`RateLimitExceeded`; only the empty-item-list `ValueError` precedes the
token take. -/
theorem place_order_rate_limit_spec (cc cc' : Except CouponErr Unit)
    (sc sc' : Except Exc Unit) :
    (place_order true false cc sc).1
        = Except.error PlaceOrderErr.rateLimitExceeded
    ∧ (place_order false false cc sc).2 = true
    ∧ (place_order ((place_order false false cc sc).2) false cc' sc').1
        = Except.error PlaceOrderErr.rateLimitExceeded := by
  have h2 : (place_order false false cc sc).2 = true := by
    cases cc with
    | ok u => cases sc <;> rfl
    | error e => rfl
  refine ⟨rfl, h2, ?_⟩
  rw [h2]
  rfl

end Supermarket
